import Mathlib

/-!
Shallow embedding of the EDS authentication subsystem of the Akimat
request-tracking backend (`app/api/auth/eds/kz_eds.py`, `app/api/deps.py`,
`app/api/auth/eds/router.py`, `app/api/auth/email.py`, `app/models/user.py`).

External effects are made explicit:
  * each call to the NCANode verification service is an input of type
    `SvcOutcome` (either a transport/parse/timeout exception, or a parsed
    JSON response);
  * the database session is passed and returned explicitly (`DB`);
  * storage faults and JWT-signing faults are Boolean oracle inputs;
  * `datetime.utcnow()` is an explicit `now : Nat` (POSIX seconds).
Python exceptions are modelled with `Except`; an exception caught by a
blanket handler is reflected by the handler's return value.
-/

namespace AkimatAuth

/-- One entry of the `signers` array of an NCANode `/xml/verify` response.
`valid` models the optional `"valid"` flag; `subject_iin` models
`signer["subject"]["iin"]` (absent subject or absent iin collapse to `none`,
exactly what chained `.get` calls with `{}` defaults produce). -/
structure Signer where
  valid : Option Bool := none
  subject_iin : Option String := none
deriving Repr, DecidableEq

/-- Parsed JSON body of an NCANode `/xml/verify` response: optional
`"status"` field and optional `"signers"` array. -/
structure NCAVerifyResponse where
  status : Option Int := none
  signers : Option (List Signer) := none
deriving Repr, DecidableEq

/-- Outcome of one HTTP call to NCANode: `exn` covers `requests.Timeout`
and every other transport/parse exception; `ok` is a parsed response. -/
inductive SvcOutcome where
  | exn
  | ok (resp : NCAVerifyResponse)
deriving Repr, DecidableEq

/-- `result.get("signers", [{}])[0].get("valid")` from
`verify_xml_signature`: a missing `signers` key defaults to `[{}]`, whose
first element has no `valid` flag; an empty `signers` list raises
`IndexError`, which the blanket handler turns into `False` — the same
outward value as `none == some true` here. -/
def firstSignerValid (r : NCAVerifyResponse) : Option Bool :=
  match r.signers with
  | none => none
  | some [] => none
  | some (s :: _) => s.valid

/-- `KZEDSAuthenticator.verify_xml_signature` (kz_eds.py:47-86): returns
`true` iff the service call succeeded, `result.get("status") == 200` and
the first signer's `valid` flag is `True`; every exception path
(`requests.Timeout`, `except Exception`) returns `false`. -/
def verify_xml_signature (o : SvcOutcome) : Bool :=
  match o with
  | .exn => false
  | .ok r => r.status == some 200 && firstSignerValid r == some true

/-- `KZEDSAuthenticator.extract_user_info_from_xml` (kz_eds.py:88-127),
projected to the only key the caller reads: the value of
`user_info.get("iin")`. An empty dict `{}` (non-200 status, `KeyError`
from `{}[0]`, `IndexError`, timeout, any exception) and a present-but-null
iin both yield `none`. -/
def extract_user_info_from_xml (o : SvcOutcome) : Option String :=
  match o with
  | .exn => none
  | .ok r =>
    if r.status ≠ some 200 then none
    else
      match r.signers with
      | none => none
      | some [] => none
      | some (s :: _) => s.subject_iin

/-- Python truthiness of `user_info.get("iin")`: falsy when the key is
missing, the value is `None`, or the value is the empty string. -/
def iinTruthy : Option String → Bool
  | none => false
  | some s => s ≠ ""

/-! User model (`app/models/user.py`). -/

inductive UserStatus where
  | ACTIVE
  | PENDING
  | INACTIVE
deriving Repr, DecidableEq

/-- The string value of the `UserStatus` enum. -/
def UserStatus.value : UserStatus → String
  | .ACTIVE => "active"
  | .PENDING => "pending"
  | .INACTIVE => "inactive"

inductive UserRole where
  | EMPLOYEE
  | SUPERVISOR
  | ADMINISTRATOR
deriving Repr, DecidableEq

/-- The string value of the `UserRole` enum. -/
def UserRole.value : UserRole → String
  | .EMPLOYEE => "employee"
  | .SUPERVISOR => "supervisor"
  | .ADMINISTRATOR => "administrator"

/-- A row of the `users` table. Field defaults mirror the column defaults
(`is_active=True`, `is_superuser=False`, `status="pending"`,
`role="employee"`, nullable columns default to NULL). -/
structure UserRec where
  id : Nat
  email : Option String := none
  hashed_password : Option String := none
  iin : Option String := none
  full_name : Option String := none
  is_active : Bool := true
  is_superuser : Bool := false
  status : String := UserStatus.PENDING.value
  role : String := UserRole.EMPLOYEE.value
  phone_number : Option String := none
  organization : Option String := none
  position : Option String := none
deriving Repr, DecidableEq

/-- The durable user store reached through a SQLAlchemy session: the rows
of the `users` table plus the id sequence. -/
structure DB where
  users : List UserRec := []
  next_id : Nat := 0
deriving Repr, DecidableEq

/-- `KZEDSAuthenticator.get_user_by_iin` (kz_eds.py:171-176):
`db.query(User).filter(User.iin == iin).first()`. A SQL equality against a
NULL `iin` column does not match, hence the comparison with `some iin`. -/
def get_user_by_iin (db : DB) (iin : String) : Option UserRec :=
  db.users.find? (fun u => u.iin == some iin)

/-- The unique constraints of the `users` table (`email` and `iin`, both
nullable; NULLs never conflict): `true` iff inserting `u` would violate
one of them. -/
def violatesUnique (db : DB) (u : UserRec) : Bool :=
  db.users.any (fun v =>
    (u.iin.isSome && v.iin == u.iin) || (u.email.isSome && v.email == u.email))

/-- The storage-layer exception raised out of a failed insert
(`IntegrityError` for a uniqueness violation, or any other fault). -/
structure PersistenceError where
  msg : String
deriving Repr, DecidableEq

/-- `KZEDSAuthenticator.create_user_from_eds_data` (kz_eds.py:178-202):
builds a pending user from the EDS data (only `iin` is carried; `email`,
`full_name`, `hashed_password` explicitly `None`; the remaining profile
columns keep their NULL defaults) and inserts it. On any insert fault the
session is rolled back — the returned error carries no store, the caller
keeps the unchanged one — and the exception is re-raised. `storageFault`
is the oracle for a non-uniqueness storage fault. -/
def create_user_from_eds_data (db : DB) (user_iin : Option String)
    (storageFault : Bool) : Except PersistenceError (UserRec × DB) :=
  let user : UserRec :=
    { id := db.next_id
      iin := user_iin
      email := none
      full_name := none
      is_active := true
      is_superuser := false
      status := UserStatus.PENDING.value
      hashed_password := none }
  if storageFault || violatesUnique db user then
    .error ⟨"storage fault or IntegrityError on insert"⟩
  else
    .ok (user, { db with users := db.users ++ [user], next_id := db.next_id + 1 })

/-- The dictionary `{"user": ..., "login_status": ...}` returned by a
successful `authenticate_eds`. -/
structure AuthSuccess where
  user : UserRec
  login_status : String
deriving Repr, DecidableEq

/-- `KZEDSAuthenticator.authenticate_eds` (kz_eds.py:204-264). Inputs
`verifyOut` and `extractOut` are the outcomes of its two NCANode calls
(`verify_xml_signature`, then `extract_user_info_from_xml`, both on the
same `signed_xml`). Returns the optional result dict together with the
resulting store. The blanket `except Exception: return None` catches the
exception re-raised by `create_user_from_eds_data`; the store was rolled
back there, so the original `db` is returned on that path. -/
def authenticate_eds (verifyOut extractOut : SvcOutcome) (db : DB)
    (storageFault : Bool) : Option AuthSuccess × DB :=
  if !verify_xml_signature verifyOut then (none, db)
  else
    let iin? := extract_user_info_from_xml extractOut
    if !iinTruthy iin? then (none, db)
    else
      let iin := iin?.getD ""
      match get_user_by_iin db iin with
      | none =>
        match create_user_from_eds_data db iin? storageFault with
        | .ok (user, db2) => (some ⟨user, "REGISTRATION_REQUIRED"⟩, db2)
        | .error _ => (none, db)
      | some user =>
        if user.status == UserStatus.PENDING.value then
          (some ⟨user, "REGISTRATION_REQUIRED"⟩, db)
        else if user.status == UserStatus.INACTIVE.value then (none, db)
        else (some ⟨user, "AUTHENTICATED"⟩, db)

/-! JWT layer (`python-jose`), shared between the EDS module and
`app/api/deps.py`: `EDSConfig.JWT_SECRET_KEY = settings.SECRET_KEY`. -/

/-- The configured `settings.SECRET_KEY` (one process-wide value). -/
def SECRET_KEY : String := "settings.SECRET_KEY"

/-- `settings.ACCESS_TOKEN_EXPIRE_MINUTES` (default 30). -/
def ACCESS_TOKEN_EXPIRE_MINUTES : Nat := 30

/-- The claims of a decoded JWT that this codebase reads: key presence and
JSON null are conflated per claim, which is faithful because every reader
goes through `payload.get(...)`. `exp` is POSIX seconds. -/
structure JwtPayload where
  iin : Option String := none
  exp : Nat := 0
  error : Option String := none
deriving Repr, DecidableEq

/-- A bearer token string as the validators see it: either a well-formed
JWT signed with some key, or a string that fails parsing/signature
checking altogether. -/
inductive Jwt where
  | signed (key : String) (payload : JwtPayload)
  | malformed
deriving Repr, DecidableEq

/-- `jose.jwt.encode(payload, key, algorithm)`. -/
def jwt_encode (payload : JwtPayload) (key : String) : Jwt :=
  .signed key payload

/-- `jose.jwt.decode(token, key, algorithms)` at wall-clock time `now`:
raises `JWTError` (modelled as `.error ()`) on a malformed token, a wrong
signing key, or an elapsed `exp` claim (`ExpiredSignatureError`). -/
def jwt_decode (tok : Jwt) (key : String) (now : Nat) :
    Except Unit JwtPayload :=
  match tok with
  | .malformed => .error ()
  | .signed k p =>
    if k ≠ key then .error ()
    else if p.exp ≤ now then .error ()
    else .ok p

/-- The `data` dict passed to `create_access_token`, projected to its
`"iin"` key: the code distinguishes key presence (`"iin" in data`) from
the value's truthiness (`data.get("iin")`), so both are modelled. -/
inductive IinClaim where
  | absent
  | present (v : Option String)
deriving Repr, DecidableEq

/-- `data.get("iin")`. -/
def IinClaim.get : IinClaim → Option String
  | .absent => none
  | .present v => v

/-- `KZEDSAuthenticator.create_access_token` (kz_eds.py:129-169): signs
`data ∪ {exp}` where `exp` is `now` plus the caller's `expires_delta`
(seconds) or the configured default. On any exception while building or
signing (`signingFault` oracle), the `except` branch signs a fallback
payload with a 5-minute expiry, the marker claim
`error = "token_creation_failed"`, and the input's `iin` when that key was
present. -/
def create_access_token (data : IinClaim) (expires_delta : Option Nat)
    (now : Nat) (signingFault : Bool) : Jwt :=
  if signingFault then
    let base : JwtPayload :=
      { exp := now + 5 * 60, error := some "token_creation_failed" }
    match data with
    | .absent => jwt_encode base SECRET_KEY
    | .present v => jwt_encode { base with iin := v } SECRET_KEY
  else
    let expire := now +
      (match expires_delta with
       | some d => d
       | none => ACCESS_TOKEN_EXPIRE_MINUTES * 60)
    jwt_encode { iin := data.get, exp := expire, error := none } SECRET_KEY

/-- An HTTP error response (`fastapi.HTTPException`). -/
structure HTTPError where
  status_code : Nat
  detail : String
deriving Repr, DecidableEq

/-- The 401 raised by `get_current_user_from_token` when no bearer token
is present. -/
def not_authenticated_error : HTTPError :=
  ⟨401, "Not authenticated"⟩

/-- The `credentials_exception` of `get_current_user_from_token`. -/
def credentials_exception : HTTPError :=
  ⟨401, "Could not validate credentials"⟩

/-- `get_current_user_from_token` (kz_eds.py:266-306), the EDS-module
token validator: 401 when the token is absent; 401 `credentials_exception`
on `JWTError` (bad signature/expired), on a missing `iin` claim, and —
the same exception object — when no user row matches the claimed `iin`.
The user is re-read from the store on every call; no field of the user
other than existence is inspected. -/
def get_current_user_from_token (token : Option Jwt) (db : DB) (now : Nat) :
    Except HTTPError UserRec :=
  match token with
  | none => .error not_authenticated_error
  | some tok =>
    match jwt_decode tok SECRET_KEY now with
    | .error _ => .error credentials_exception
    | .ok payload =>
      match payload.iin with
      | none => .error credentials_exception
      | some iin =>
        match get_user_by_iin db iin with
        | none => .error credentials_exception
        | some user => .ok user

/-- `get_current_user` (deps.py:45-78), the primary token validator used
by almost every endpoint: 401 on `JWTError`/`ValidationError`, 401 with a
distinct detail on a missing `iin` claim, 404 "User not found" when the
claimed `iin` resolves to no user, else the freshly-loaded user row. -/
def get_current_user (token : Jwt) (db : DB) (now : Nat) :
    Except HTTPError UserRec :=
  match jwt_decode token SECRET_KEY now with
  | .error _ => .error ⟨401, "Could not validate credentials"⟩
  | .ok payload =>
    match payload.iin with
    | none => .error ⟨401, "Could not validate credentials - missing IIN"⟩
    | some iin =>
      match get_user_by_iin db iin with
      | none => .error ⟨404, "User not found"⟩
      | some user => .ok user

/-- `get_current_active_user` (deps.py:81-86): rejects only
`is_active = False` (HTTP 400); the `status` column is not consulted. -/
def get_current_active_user (token : Jwt) (db : DB) (now : Nat) :
    Except HTTPError UserRec :=
  match get_current_user token db now with
  | .error e => .error e
  | .ok u => if !u.is_active then .error ⟨400, "Inactive user"⟩ else .ok u

/-- The response body of `POST /auth/eds/login`. -/
structure TokenResponse where
  access_token : Jwt
  token_type : String
  is_new_user : Bool
  role : String
deriving Repr, DecidableEq

/-- `login_with_eds` (router.py:33-121): 400 on an empty `signed_xml`,
401 "Invalid EDS signature or user information" when `authenticate_eds`
returns `None`, otherwise a token minted over `{"iin": user.iin}` plus
`is_new_user = (login_status == "REGISTRATION_REQUIRED")` and the user's
role. -/
def login_with_eds (signed_xml : String) (verifyOut extractOut : SvcOutcome)
    (db : DB) (storageFault signingFault : Bool) (now : Nat) :
    Except HTTPError (TokenResponse × DB) :=
  if signed_xml = "" then .error ⟨400, "Missing signed XML document"⟩
  else
    match authenticate_eds verifyOut extractOut db storageFault with
    | (none, _) => .error ⟨401, "Invalid EDS signature or user information"⟩
    | (some res, db2) =>
      let access_token :=
        create_access_token (.present res.user.iin) none now signingFault
      .ok (⟨access_token, "bearer",
            res.login_status == "REGISTRATION_REQUIRED", res.user.role⟩, db2)

/-! Email/password self-registration (`app/api/auth/email.py`). -/

/-- Request body of `POST /auth/email/register` (the `UserCreate`
pydantic model). -/
structure UserCreate where
  email : String
  password : String
  full_name : String
  phone_number : String
  organization : Option String := none
  position : Option String := none
deriving Repr, DecidableEq

/-- `get_user_by_email` (email.py:55-56). -/
def get_user_by_email (db : DB) (email : String) : Option UserRec :=
  db.users.find? (fun u => u.email == some email)

/-- `generate_pseudo_iin` (email.py:58-62): `f"E{uuid.uuid4().hex[:11]}"`.
The random draw `uuid.uuid4().hex` — in CPython always a 32-character
lowercase-hexadecimal string — is an explicit input; slicing is
`List.take` on the characters. -/
def generate_pseudo_iin (uuid4_hex : String) : String :=
  "E" ++ String.mk (uuid4_hex.toList.take 11)

/-- `get_password_hash` (email.py:52-53): bcrypt is abstracted to an
injective tagging, which is all the claims use of it. -/
def get_password_hash (password : String) : String :=
  "bcrypt$" ++ password

/-- Response body of the email auth endpoints. -/
structure EmailTokenResponse where
  access_token : Jwt
  token_type : String
  role : String
deriving Repr, DecidableEq

/-- `register_user` (email.py:64-122): 400 when the email is taken;
otherwise inserts a user with the submitted profile, a bcrypt credential,
`status="active"`, `role="administrator"`, `is_active=True` and a
generated pseudo-IIN, rolling back to a 500 on any insert fault; on
success answers with a token over `{"iin": user.iin}`. The created row
and the resulting store are returned alongside the response so that
properties of the persisted state can be stated. -/
def register_user (user_data : UserCreate) (db : DB) (uuid4_hex : String)
    (storageFault signingFault : Bool) (now : Nat) :
    Except HTTPError (EmailTokenResponse × UserRec × DB) :=
  match get_user_by_email db user_data.email with
  | some _ => .error ⟨400, "Email already registered"⟩
  | none =>
    let pseudo_iin := generate_pseudo_iin uuid4_hex
    let hashed_password := get_password_hash user_data.password
    let user : UserRec :=
      { id := db.next_id
        email := some user_data.email
        hashed_password := some hashed_password
        full_name := some user_data.full_name
        phone_number := some user_data.phone_number
        organization := user_data.organization
        position := user_data.position
        status := UserStatus.ACTIVE.value
        role := UserRole.ADMINISTRATOR.value
        is_active := true
        iin := some pseudo_iin }
    if storageFault || violatesUnique db user then
      .error ⟨500, "Error creating user"⟩
    else
      let db2 : DB :=
        { db with users := db.users ++ [user], next_id := db.next_id + 1 }
      let access_token :=
        create_access_token (.present user.iin) none now signingFault
      .ok (⟨access_token, "bearer", user.role⟩, user, db2)

/-- Lowercase hexadecimal digit, the alphabet of `uuid.uuid4().hex`. -/
def isHexDigit (c : Char) : Bool :=
  c.isDigit || ('a' ≤ c && c ≤ 'f')

/-! Theorems. -/

/-- C2: `verify_xml_signature` is fail-closed and total: it is a total
Boolean function of the service outcome (all exception paths are `.exn`
inputs, so no exception escapes its boundary), and it answers `true`
exactly when the service replied with status 200 and the first signer's
`valid` flag is `true` — every other outcome, including timeout, parse
failure, non-200 status and a missing `valid` flag, yields `false`. -/
theorem verify_xml_signature_fail_closed (o : SvcOutcome) :
    verify_xml_signature o = true ↔
      ∃ r, o = SvcOutcome.ok r ∧ r.status = some 200 ∧
        firstSignerValid r = some true := by
  cases o with
  | exn => simp [verify_xml_signature]
  | ok r => simp [verify_xml_signature]

/-- C1: `authenticate_eds` realises the 4-state decision table with
short-circuit evaluation: failed verification → `none`; no extractable
IIN → `none`; then by user lookup: absent → create pending user and
`REGISTRATION_REQUIRED`; `pending` → `REGISTRATION_REQUIRED`; `inactive`
→ `none`; `active` → `AUTHENTICATED`. -/
theorem authenticate_eds_decision_table (vo eo : SvcOutcome) (db : DB)
    (iin : String)
    (hv : verify_xml_signature vo = true)
    (he : extract_user_info_from_xml eo = some iin)
    (ht : iin ≠ "") :
    (∀ vo' eo' : SvcOutcome, ∀ db' : DB, ∀ f : Bool,
        verify_xml_signature vo' = false →
        authenticate_eds vo' eo' db' f = (none, db')) ∧
    (∀ eo' : SvcOutcome, ∀ db' : DB, ∀ f : Bool,
        iinTruthy (extract_user_info_from_xml eo') = false →
        authenticate_eds vo eo' db' f = (none, db')) ∧
    (∀ u : UserRec, ∀ db2 : DB,
        get_user_by_iin db iin = none →
        create_user_from_eds_data db (some iin) false = .ok (u, db2) →
        authenticate_eds vo eo db false =
          (some ⟨u, "REGISTRATION_REQUIRED"⟩, db2)) ∧
    (∀ u : UserRec, ∀ f : Bool,
        get_user_by_iin db iin = some u →
        (u.status = UserStatus.PENDING.value →
          authenticate_eds vo eo db f =
            (some ⟨u, "REGISTRATION_REQUIRED"⟩, db)) ∧
        (u.status = UserStatus.INACTIVE.value →
          authenticate_eds vo eo db f = (none, db)) ∧
        (u.status = UserStatus.ACTIVE.value →
          authenticate_eds vo eo db f = (some ⟨u, "AUTHENTICATED"⟩, db))) := by
  refine ⟨?_, ?_, ?_, ?_⟩
  · intro vo' eo' db' f hv'
    simp [authenticate_eds, hv']
  · intro eo' db' f hni
    simp [authenticate_eds, hv, hni]
  · intro u db2 hnone hcreate
    simp [authenticate_eds, hv, he, iinTruthy, ht, hnone, hcreate]
  · intro u f hsome
    refine ⟨?_, ?_, ?_⟩ <;> intro hs <;>
      simp [authenticate_eds, hv, he, iinTruthy, ht, hsome, hs,
            UserStatus.value]

/-- Witness for C1: a concrete first-time login (valid signature, IIN
`123456789012`, empty store) goes through the creation branch. -/
theorem authenticate_eds_decision_table_witness :
    authenticate_eds
        (.ok ⟨some 200, some [⟨some true, some "123456789012"⟩]⟩)
        (.ok ⟨some 200, some [⟨some true, some "123456789012"⟩]⟩)
        ⟨[], 0⟩ false =
      (some ⟨{ id := 0, iin := some "123456789012",
               status := UserStatus.PENDING.value }, "REGISTRATION_REQUIRED"⟩,
       ⟨[{ id := 0, iin := some "123456789012",
           status := UserStatus.PENDING.value }], 1⟩) :=
  (authenticate_eds_decision_table
      (.ok ⟨some 200, some [⟨some true, some "123456789012"⟩]⟩)
      (.ok ⟨some 200, some [⟨some true, some "123456789012"⟩]⟩)
      ⟨[], 0⟩ "123456789012" (by decide) (by decide) (by decide)).2.2.1
    { id := 0, iin := some "123456789012",
      status := UserStatus.PENDING.value }
    ⟨[{ id := 0, iin := some "123456789012",
        status := UserStatus.PENDING.value }], 1⟩
    (by decide) (by rfl)

/-- C3: an inactive account with an otherwise valid signature and matching
IIN is outwardly indistinguishable from a failed signature verification:
both runs of `authenticate_eds` return `none` with the store untouched,
and both runs of the login endpoint answer the same generic 401. -/
theorem inactive_account_indistinguishable_from_bad_signature
    (vo eo vo' eo' : SvcOutcome) (db : DB) (f f' sf sf' : Bool)
    (xml xml' iin : String) (u : UserRec) (now now' : Nat)
    (hv : verify_xml_signature vo = true)
    (he : extract_user_info_from_xml eo = some iin)
    (ht : iin ≠ "")
    (hu : get_user_by_iin db iin = some u)
    (hs : u.status = UserStatus.INACTIVE.value)
    (hv' : verify_xml_signature vo' = false)
    (hxml : xml ≠ "") (hxml' : xml' ≠ "") :
    authenticate_eds vo eo db f = (none, db) ∧
    authenticate_eds vo eo db f = authenticate_eds vo' eo' db f' ∧
    login_with_eds xml vo eo db f sf now =
      .error ⟨401, "Invalid EDS signature or user information"⟩ ∧
    login_with_eds xml vo eo db f sf now =
      login_with_eds xml' vo' eo' db f' sf' now' := by
  have h1 : authenticate_eds vo eo db f = (none, db) := by
    simp [authenticate_eds, hv, he, iinTruthy, ht, hu, hs, UserStatus.value]
  have h2 : authenticate_eds vo' eo' db f' = (none, db) := by
    simp [authenticate_eds, hv']
  have h3 : login_with_eds xml vo eo db f sf now =
      .error ⟨401, "Invalid EDS signature or user information"⟩ := by
    simp [login_with_eds, hxml, h1]
  have h4 : login_with_eds xml' vo' eo' db f' sf' now' =
      .error ⟨401, "Invalid EDS signature or user information"⟩ := by
    simp [login_with_eds, hxml', h2]
  exact ⟨h1, h1.trans h2.symm, h3, h3.trans h4.symm⟩

/-- Witness for C3: concrete inactive user vs. concrete invalid-signature
response yield the same outward `none`. -/
theorem inactive_account_indistinguishable_witness :
    authenticate_eds
        (.ok ⟨some 200, some [⟨some true, some "123456789012"⟩]⟩)
        (.ok ⟨some 200, some [⟨some true, some "123456789012"⟩]⟩)
        ⟨[{ id := 7, iin := some "123456789012",
            status := UserStatus.INACTIVE.value }], 8⟩ false =
      authenticate_eds
        (.ok ⟨some 200, some [⟨some false, some "123456789012"⟩]⟩)
        (.ok ⟨some 200, some [⟨some false, some "123456789012"⟩]⟩)
        ⟨[{ id := 7, iin := some "123456789012",
            status := UserStatus.INACTIVE.value }], 8⟩ false :=
  (inactive_account_indistinguishable_from_bad_signature
      (.ok ⟨some 200, some [⟨some true, some "123456789012"⟩]⟩)
      (.ok ⟨some 200, some [⟨some true, some "123456789012"⟩]⟩)
      (.ok ⟨some 200, some [⟨some false, some "123456789012"⟩]⟩)
      (.ok ⟨some 200, some [⟨some false, some "123456789012"⟩]⟩)
      ⟨[{ id := 7, iin := some "123456789012",
          status := UserStatus.INACTIVE.value }], 8⟩ false false false false
      "<xml/>" "<xml/>" "123456789012"
      { id := 7, iin := some "123456789012",
        status := UserStatus.INACTIVE.value } 0 0
      (by decide) (by decide) (by decide) (by decide) (by decide) (by decide)
      (by decide) (by decide)).2.1

/-- C4: token round-trip. Validating a token freshly issued over
`{"iin": X}` — before its default expiry and with no signing fault —
resolves to the stored user found by `X`, and that user's `iin` is `X`. -/
theorem token_round_trip (db : DB) (X : String) (u : UserRec)
    (now now' : Nat)
    (hu : get_user_by_iin db X = some u)
    (hexp : now' < now + ACCESS_TOKEN_EXPIRE_MINUTES * 60) :
    get_current_user_from_token
        (some (create_access_token (.present (some X)) none now false))
        db now' = .ok u ∧
    u.iin = some X := by
  constructor
  · have hnotexp : ¬ (now + ACCESS_TOKEN_EXPIRE_MINUTES * 60 ≤ now') := by
      omega
    simp [get_current_user_from_token, create_access_token, jwt_encode,
          jwt_decode, IinClaim.get, hnotexp, hu]
  · have hp := List.find?_some hu
    simpa using hp

/-- Witness for C4: issuing at time 0 and validating at time 60 against a
one-user store returns that user. -/
theorem token_round_trip_witness :
    get_current_user_from_token
        (some (create_access_token (.present (some "990101300123")) none 0
          false))
        ⟨[{ id := 3, iin := some "990101300123",
            status := UserStatus.ACTIVE.value }], 4⟩ 60 =
      .ok { id := 3, iin := some "990101300123",
            status := UserStatus.ACTIVE.value } :=
  (token_round_trip
      ⟨[{ id := 3, iin := some "990101300123",
          status := UserStatus.ACTIVE.value }], 4⟩ "990101300123"
      { id := 3, iin := some "990101300123",
        status := UserStatus.ACTIVE.value } 0 60
      (by decide) (by decide)).1

/-- C5 counterexample: the fallback error token minted on a signing fault
(over `{"iin": "123456789012"}`, at time 0) carries the
`token_creation_failed` marker — yet downstream validation does NOT
reject it: at time 100, well inside the 5-minute window, with the iin
resolving to a stored user, `get_current_user_from_token` accepts the
token and returns the user. -/
theorem error_token_not_rejected_counterexample :
    create_access_token (.present (some "123456789012")) none 0 true =
      Jwt.signed SECRET_KEY
        { iin := some "123456789012", exp := 300,
          error := some "token_creation_failed" } ∧
    get_current_user_from_token
        (some (create_access_token (.present (some "123456789012")) none 0
          true))
        ⟨[{ id := 1, iin := some "123456789012",
            status := UserStatus.ACTIVE.value }], 2⟩ 100 =
      .ok { id := 1, iin := some "123456789012",
            status := UserStatus.ACTIVE.value } := by
  constructor
  · rfl
  · rfl

/-- C5 amended: on an internal signing fault the issuer never returns an
unsigned or empty token — it signs, with the regular secret, a degraded
payload with a 5-minute expiry, the marker `error="token_creation_failed"`
and the input's `iin` when present. Downstream validation rejects the
fallback token once its 5 minutes have elapsed, and rejects it at any
time when the `iin` claim is absent; but it never inspects the error
marker, so before expiry a fallback token whose `iin` resolves to a user
validates successfully. -/
theorem fallback_error_token_behaviour (data : IinClaim) (now : Nat) :
    ∃ p : JwtPayload,
      create_access_token data none now true = Jwt.signed SECRET_KEY p ∧
      p.error = some "token_creation_failed" ∧
      p.exp = now + 5 * 60 ∧
      p.iin = data.get ∧
      (∀ db : DB, ∀ tval : Nat, now + 5 * 60 ≤ tval →
        get_current_user_from_token
            (some (create_access_token data none now true)) db tval =
          .error credentials_exception) ∧
      (∀ db : DB, ∀ tval : Nat, data.get = none →
        get_current_user_from_token
            (some (create_access_token data none now true)) db tval =
          .error credentials_exception) ∧
      (∀ db : DB, ∀ tval : Nat, ∀ iin : String, ∀ u : UserRec,
        tval < now + 5 * 60 → data.get = some iin →
        get_user_by_iin db iin = some u →
        get_current_user_from_token
            (some (create_access_token data none now true)) db tval =
          .ok u) := by
  cases data with
  | absent =>
    refine ⟨{ exp := now + 5 * 60, error := some "token_creation_failed" },
      rfl, rfl, rfl, rfl, ?_, ?_, ?_⟩
    · intro db tval hle
      simp [get_current_user_from_token, create_access_token, jwt_encode,
            jwt_decode, hle]
    · intro db tval _
      by_cases hle : now + 5 * 60 ≤ tval <;>
        simp [get_current_user_from_token, create_access_token, jwt_encode,
              jwt_decode, hle]
    · intro db tval iin u _ hiin _
      simp [IinClaim.get] at hiin
  | present v =>
    refine ⟨{ iin := v, exp := now + 5 * 60,
              error := some "token_creation_failed" },
      rfl, rfl, rfl, rfl, ?_, ?_, ?_⟩
    · intro db tval hle
      simp [get_current_user_from_token, create_access_token, jwt_encode,
            jwt_decode, hle]
    · intro db tval hv
      simp [IinClaim.get] at hv
      by_cases hle : now + 5 * 60 ≤ tval <;>
        simp [get_current_user_from_token, create_access_token, jwt_encode,
              jwt_decode, hle, hv]
    · intro db tval iin u hlt hiin hu
      have hnle : ¬ (now + 5 * 60 ≤ tval) := by omega
      simp [IinClaim.get] at hiin
      simp [get_current_user_from_token, create_access_token, jwt_encode,
            jwt_decode, hnle, hiin, hu]

/-- Witness for C5 (amended): the fallback token issued at time 0 over
`{"iin": "990101300123"}` is rejected at time 300 (expired). -/
theorem fallback_error_token_behaviour_witness :
    get_current_user_from_token
        (some (create_access_token (.present (some "990101300123")) none 0
          true))
        ⟨[], 0⟩ 300 = .error credentials_exception := by
  obtain ⟨p, -, -, -, -, hrej, -, -⟩ :=
    fallback_error_token_behaviour (.present (some "990101300123")) 0
  exact hrej ⟨[], 0⟩ 300 (by decide)

/-- C6 counterexample: a user deactivated after token issuance (status set
to `inactive`, `is_active` untouched) IS still served on the next
request: with a valid unexpired token, both token validators — and even
`get_current_active_user`, which only checks `is_active` — return the
deactivated user instead of rejecting the request. -/
theorem deactivated_user_still_served_counterexample :
    get_current_user_from_token
        (some (create_access_token (.present (some "123456789012")) none 0
          false))
        ⟨[{ id := 5, iin := some "123456789012",
            status := UserStatus.INACTIVE.value, is_active := true }], 6⟩
        100 =
      .ok { id := 5, iin := some "123456789012",
            status := UserStatus.INACTIVE.value, is_active := true } ∧
    get_current_user
        (create_access_token (.present (some "123456789012")) none 0 false)
        ⟨[{ id := 5, iin := some "123456789012",
            status := UserStatus.INACTIVE.value, is_active := true }], 6⟩
        100 =
      .ok { id := 5, iin := some "123456789012",
            status := UserStatus.INACTIVE.value, is_active := true } ∧
    get_current_active_user
        (create_access_token (.present (some "123456789012")) none 0 false)
        ⟨[{ id := 5, iin := some "123456789012",
            status := UserStatus.INACTIVE.value, is_active := true }], 6⟩
        100 =
      .ok { id := 5, iin := some "123456789012",
            status := UserStatus.INACTIVE.value, is_active := true } := by
  refine ⟨rfl, rfl, rfl⟩

/-- C6 amended: both token validators re-resolve the user from the store
by the token's `iin` claim on every call (no caching) — the record
returned is exactly the one held by the store passed at validation time,
so any post-issuance change to the stored record, deactivation included,
is visible on the very next request. However, neither validator consults
the `status` field: a user whose status was set to `inactive` is still
returned (only `get_current_active_user` rejects, and only on
`is_active = false`). -/
theorem validators_reresolve_but_ignore_status (p : JwtPayload)
    (iin : String) (db : DB) (now : Nat) (u : UserRec)
    (hiin : p.iin = some iin) (hexp : now < p.exp)
    (hu : get_user_by_iin db iin = some u) :
    get_current_user_from_token (some (Jwt.signed SECRET_KEY p)) db now =
      .ok u ∧
    get_current_user (Jwt.signed SECRET_KEY p) db now = .ok u := by
  have hnle : ¬ (p.exp ≤ now) := by omega
  constructor
  · simp [get_current_user_from_token, jwt_decode, hnle, hiin, hu]
  · simp [get_current_user, jwt_decode, hnle, hiin, hu]

/-- Witness for C6 (amended): the same token validated against two stores
that differ only in the user's record returns, each time, the record of
the store it was called with — the post-issuance change is visible. -/
theorem validators_reresolve_witness :
    get_current_user
        (Jwt.signed SECRET_KEY { iin := some "123456789012", exp := 1800 })
        ⟨[{ id := 5, iin := some "123456789012",
            status := UserStatus.ACTIVE.value }], 6⟩ 100 =
      .ok { id := 5, iin := some "123456789012",
            status := UserStatus.ACTIVE.value } ∧
    get_current_user
        (Jwt.signed SECRET_KEY { iin := some "123456789012", exp := 1800 })
        ⟨[{ id := 5, iin := some "123456789012",
            status := UserStatus.INACTIVE.value }], 6⟩ 100 =
      .ok { id := 5, iin := some "123456789012",
            status := UserStatus.INACTIVE.value } :=
  ⟨(validators_reresolve_but_ignore_status
      { iin := some "123456789012", exp := 1800 } "123456789012"
      ⟨[{ id := 5, iin := some "123456789012",
          status := UserStatus.ACTIVE.value }], 6⟩ 100
      { id := 5, iin := some "123456789012",
        status := UserStatus.ACTIVE.value }
      (by decide) (by decide) (by decide)).2,
   (validators_reresolve_but_ignore_status
      { iin := some "123456789012", exp := 1800 } "123456789012"
      ⟨[{ id := 5, iin := some "123456789012",
          status := UserStatus.INACTIVE.value }], 6⟩ 100
      { id := 5, iin := some "123456789012",
        status := UserStatus.INACTIVE.value }
      (by decide) (by decide) (by decide)).2⟩

/-- C7 counterexample: in the EDS-module validator
`get_current_user_from_token`, a valid unexpired token whose `iin` claim
resolves to no user fails with the very same 401
`credentials_exception` as an outright invalid token — not with a
distinct NotFound error. -/
theorem unresolved_iin_collapses_to_401_counterexample :
    get_current_user_from_token
        (some (Jwt.signed SECRET_KEY
          { iin := some "123456789012", exp := 1800 }))
        ⟨[], 0⟩ 100 = .error credentials_exception ∧
    get_current_user_from_token (some Jwt.malformed) ⟨[], 0⟩ 100 =
      .error credentials_exception ∧
    credentials_exception.status_code = 401 := by
  refine ⟨rfl, rfl, rfl⟩

/-- C7 amended: the primary validator `get_current_user` (deps.py) fails
401 when the token is invalid or expired, 401 (with its own detail) when
the `iin` claim is missing, and with the distinct 404 "User not found"
when a valid token's `iin` resolves to no user; the EDS-module validator
`get_current_user_from_token`, however, collapses the unresolved-iin case
to the same 401 `credentials_exception` it uses for invalid tokens. -/
theorem token_validator_error_taxonomy (p : JwtPayload) (db : DB)
    (now : Nat) :
    (∀ tok : Jwt, jwt_decode tok SECRET_KEY now = .error () →
        get_current_user tok db now =
          .error ⟨401, "Could not validate credentials"⟩) ∧
    (p.iin = none → now < p.exp →
        get_current_user (Jwt.signed SECRET_KEY p) db now =
          .error ⟨401, "Could not validate credentials - missing IIN"⟩) ∧
    (∀ iin : String, p.iin = some iin → now < p.exp →
        get_user_by_iin db iin = none →
        get_current_user (Jwt.signed SECRET_KEY p) db now =
          .error ⟨404, "User not found"⟩) ∧
    (∀ iin : String, p.iin = some iin → now < p.exp →
        get_user_by_iin db iin = none →
        get_current_user_from_token (some (Jwt.signed SECRET_KEY p)) db
            now =
          .error credentials_exception) ∧
    (⟨404, "User not found"⟩ : HTTPError) ≠
      ⟨401, "Could not validate credentials"⟩ := by
  refine ⟨?_, ?_, ?_, ?_, by decide⟩
  · intro tok hdec
    simp [get_current_user, hdec]
  · intro hnone hexp
    have hnle : ¬ (p.exp ≤ now) := by omega
    simp [get_current_user, jwt_decode, hnle, hnone]
  · intro iin hiin hexp habs
    have hnle : ¬ (p.exp ≤ now) := by omega
    simp [get_current_user, jwt_decode, hnle, hiin, habs]
  · intro iin hiin hexp habs
    have hnle : ¬ (p.exp ≤ now) := by omega
    simp [get_current_user_from_token, jwt_decode, hnle, hiin, habs]

/-- Witness for C7 (amended): concrete valid token against an empty
store — the primary validator answers 404, the EDS-module validator 401. -/
theorem token_validator_error_taxonomy_witness :
    get_current_user
        (Jwt.signed SECRET_KEY { iin := some "123456789012", exp := 1800 })
        ⟨[], 0⟩ 100 = .error ⟨404, "User not found"⟩ ∧
    get_current_user_from_token
        (some (Jwt.signed SECRET_KEY
          { iin := some "123456789012", exp := 1800 }))
        ⟨[], 0⟩ 100 = .error credentials_exception :=
  ⟨(token_validator_error_taxonomy
      { iin := some "123456789012", exp := 1800 } ⟨[], 0⟩ 100).2.2.1
      "123456789012" (by decide) (by decide) (by decide),
   (token_validator_error_taxonomy
      { iin := some "123456789012", exp := 1800 } ⟨[], 0⟩ 100).2.2.2.1
      "123456789012" (by decide) (by decide) (by decide)⟩

/-- If no stored user carries `iin`, inserting a fresh EDS user with that
`iin` and a NULL email cannot violate the unique constraints. -/
theorem eds_insert_respects_unique (db : DB) (iin : String) (u : UserRec)
    (habs : get_user_by_iin db iin = none)
    (hui : u.iin = some iin) (hue : u.email = none) :
    violatesUnique db u = false := by
  unfold get_user_by_iin at habs
  have hall := List.find?_eq_none.mp habs
  unfold violatesUnique
  rw [List.any_eq_false]
  intro v hvmem
  have hne := hall v hvmem
  simp [hui, hue] at hne ⊢
  exact fun h => absurd h hne

/-- C8: a first-time valid IIN (signature verifies, IIN extracted, no
matching user) makes `authenticate_eds` append exactly one new user to
the store — status `pending`, every profile field empty, no password
hash — and return `REGISTRATION_REQUIRED` for that user. -/
theorem first_time_iin_creates_pending_user (vo eo : SvcOutcome) (db : DB)
    (iin : String)
    (hv : verify_xml_signature vo = true)
    (he : extract_user_info_from_xml eo = some iin)
    (ht : iin ≠ "")
    (habs : get_user_by_iin db iin = none) :
    ∃ u : UserRec,
      authenticate_eds vo eo db false =
        (some ⟨u, "REGISTRATION_REQUIRED"⟩,
         { users := db.users ++ [u], next_id := db.next_id + 1 }) ∧
      u.status = UserStatus.PENDING.value ∧ u.iin = some iin ∧
      u.email = none ∧ u.full_name = none ∧ u.phone_number = none ∧
      u.organization = none ∧ u.position = none ∧
      u.hashed_password = none := by
  have hvio := eds_insert_respects_unique db iin
      { id := db.next_id, iin := some iin, email := none,
        full_name := none, is_active := true, is_superuser := false,
        status := UserStatus.PENDING.value, hashed_password := none }
      habs rfl rfl
  refine ⟨{ id := db.next_id, iin := some iin, email := none,
            full_name := none, is_active := true, is_superuser := false,
            status := UserStatus.PENDING.value, hashed_password := none },
          ?_, rfl, rfl, rfl, rfl, rfl, rfl, rfl, rfl⟩
  simp [authenticate_eds, hv, he, iinTruthy, ht, habs,
        create_user_from_eds_data, hvio]

/-- Witness for C8: first login of IIN `880704350261` against a store
holding one unrelated user. -/
theorem first_time_iin_creates_pending_user_witness :
    ∃ u : UserRec,
      authenticate_eds
          (.ok ⟨some 200, some [⟨some true, some "880704350261"⟩]⟩)
          (.ok ⟨some 200, some [⟨some true, some "880704350261"⟩]⟩)
          ⟨[{ id := 0, iin := some "123456789012",
              status := UserStatus.ACTIVE.value }], 1⟩ false =
        (some ⟨u, "REGISTRATION_REQUIRED"⟩,
         { users := [{ id := 0, iin := some "123456789012",
                       status := UserStatus.ACTIVE.value }] ++ [u],
           next_id := 2 }) ∧
      u.status = UserStatus.PENDING.value ∧ u.iin = some "880704350261" ∧
      u.email = none ∧ u.full_name = none ∧ u.phone_number = none ∧
      u.organization = none ∧ u.position = none ∧
      u.hashed_password = none :=
  first_time_iin_creates_pending_user
    (.ok ⟨some 200, some [⟨some true, some "880704350261"⟩]⟩)
    (.ok ⟨some 200, some [⟨some true, some "880704350261"⟩]⟩)
    ⟨[{ id := 0, iin := some "123456789012",
        status := UserStatus.ACTIVE.value }], 1⟩ "880704350261"
    (by decide) (by decide) (by decide) (by decide)

/-- C9: a storage fault during pending-user creation (the
`storageFault` oracle, covering the duplicate-IIN `IntegrityError` a
concurrent login loser hits) makes `create_user_from_eds_data` roll back
and raise a persistence error — the error value carries no store, so the
caller keeps the unchanged one — and `authenticate_eds` maps that
exception to overall failure: it returns `none` with the store exactly as
it was. A duplicate IIN already present in the store triggers the same
error even without the fault oracle. -/
theorem persistence_error_maps_to_auth_failure (vo eo : SvcOutcome)
    (db : DB) (iin : String)
    (hv : verify_xml_signature vo = true)
    (he : extract_user_info_from_xml eo = some iin)
    (ht : iin ≠ "") :
    (∀ iin? : Option String, ∃ e : PersistenceError,
        create_user_from_eds_data db iin? true = .error e) ∧
    (get_user_by_iin db iin ≠ none →
        ∃ e : PersistenceError,
          create_user_from_eds_data db (some iin) false = .error e) ∧
    (get_user_by_iin db iin = none →
        authenticate_eds vo eo db true = (none, db)) := by
  refine ⟨?_, ?_, ?_⟩
  · intro iin?
    exact ⟨⟨"storage fault or IntegrityError on insert"⟩,
      by simp [create_user_from_eds_data]⟩
  · intro hne
    obtain ⟨v, hvfind⟩ := Option.ne_none_iff_exists'.mp hne
    unfold get_user_by_iin at hvfind
    have hvmem := List.mem_of_find?_eq_some hvfind
    have hvp := List.find?_some hvfind
    have hvio : violatesUnique db
        { id := db.next_id, iin := some iin, email := none,
          full_name := none, is_active := true, is_superuser := false,
          status := UserStatus.PENDING.value,
          hashed_password := none } = true := by
      unfold violatesUnique
      rw [List.any_eq_true]
      exact ⟨v, hvmem, by simp at hvp ⊢; exact hvp⟩
    exact ⟨⟨"storage fault or IntegrityError on insert"⟩,
      by simp [create_user_from_eds_data, hvio]⟩
  · intro habs
    simp [authenticate_eds, hv, he, iinTruthy, ht, habs,
          create_user_from_eds_data]

/-- Witness for C9: with a faulting store, a concrete first-time login
fails outright and leaves the (empty) store unchanged. -/
theorem persistence_error_maps_to_auth_failure_witness :
    authenticate_eds
        (.ok ⟨some 200, some [⟨some true, some "880704350261"⟩]⟩)
        (.ok ⟨some 200, some [⟨some true, some "880704350261"⟩]⟩)
        ⟨[], 0⟩ true = (none, ⟨[], 0⟩) :=
  (persistence_error_maps_to_auth_failure
      (.ok ⟨some 200, some [⟨some true, some "880704350261"⟩]⟩)
      (.ok ⟨some 200, some [⟨some true, some "880704350261"⟩]⟩)
      ⟨[], 0⟩ "880704350261"
      (by decide) (by decide) (by decide)).2.2 (by decide)

/-- C10: every successful email/password self-registration persists a
user with `role="administrator"`, `status="active"` and
`is_active=True`, whose pseudo-IIN is the 12-character string `"E"`
followed by the first 11 characters of the `uuid4` hex draw — all
hexadecimal whenever the draw is (as `uuid.uuid4().hex`, a 32-character
lowercase-hex string, always is). Anonymous self-registration therefore
yields an administrator account. -/
theorem register_user_grants_administrator (ud : UserCreate) (db : DB)
    (hex : String) (now : Nat) (sf : Bool)
    (hfresh : get_user_by_email db ud.email = none)
    (hnodup : ∀ v ∈ db.users, v.iin ≠ some (generate_pseudo_iin hex))
    (hlen : hex.length = 32)
    (hhex : hex.toList.all isHexDigit = true) :
    ∃ resp : EmailTokenResponse, ∃ u : UserRec, ∃ db2 : DB,
      register_user ud db hex false sf now = .ok (resp, u, db2) ∧
      u.role = UserRole.ADMINISTRATOR.value ∧
      u.status = UserStatus.ACTIVE.value ∧
      u.is_active = true ∧
      u.iin = some (generate_pseudo_iin hex) ∧
      (generate_pseudo_iin hex).toList = 'E' :: hex.toList.take 11 ∧
      (generate_pseudo_iin hex).length = 12 ∧
      (hex.toList.take 11).all isHexDigit = true ∧
      db2.users = db.users ++ [u] ∧
      resp.role = UserRole.ADMINISTRATOR.value := by
  have hemall := List.find?_eq_none.mp hfresh
  have hvio : violatesUnique db
      { id := db.next_id, email := some ud.email,
        hashed_password := some (get_password_hash ud.password),
        full_name := some ud.full_name,
        phone_number := some ud.phone_number,
        organization := ud.organization, position := ud.position,
        status := UserStatus.ACTIVE.value,
        role := UserRole.ADMINISTRATOR.value, is_active := true,
        iin := some (generate_pseudo_iin hex) } = false := by
    unfold violatesUnique
    rw [List.any_eq_false]
    intro v hvmem
    have h1 := hnodup v hvmem
    have h2 := hemall v hvmem
    simp at h2 ⊢
    exact ⟨fun h => absurd h h1, fun h => absurd h h2⟩
  refine ⟨⟨create_access_token
            (.present (some (generate_pseudo_iin hex))) none now sf,
           "bearer", UserRole.ADMINISTRATOR.value⟩,
          { id := db.next_id, email := some ud.email,
            hashed_password := some (get_password_hash ud.password),
            full_name := some ud.full_name,
            phone_number := some ud.phone_number,
            organization := ud.organization, position := ud.position,
            status := UserStatus.ACTIVE.value,
            role := UserRole.ADMINISTRATOR.value, is_active := true,
            iin := some (generate_pseudo_iin hex) },
          { users := db.users ++
              [{ id := db.next_id, email := some ud.email,
                 hashed_password := some (get_password_hash ud.password),
                 full_name := some ud.full_name,
                 phone_number := some ud.phone_number,
                 organization := ud.organization, position := ud.position,
                 status := UserStatus.ACTIVE.value,
                 role := UserRole.ADMINISTRATOR.value, is_active := true,
                 iin := some (generate_pseudo_iin hex) }],
            next_id := db.next_id + 1 },
          ?_, rfl, rfl, rfl, rfl, rfl, ?_, ?_, rfl, rfl⟩
  · simp [register_user, hfresh, hvio]
  · show ('E' :: hex.toList.take 11).length = 12
    have hl : hex.toList.length = 32 := hlen
    simp [List.length_take, hl]
    omega
  · rw [List.all_eq_true] at hhex ⊢
    intro c hc
    exact hhex c (List.take_subset _ _ hc)

/-- Witness for C10: a concrete registration against an empty store with
the uuid draw `00112233445566778899aabbccddeeff`. -/
theorem register_user_grants_administrator_witness :
    ∃ resp : EmailTokenResponse, ∃ u : UserRec, ∃ db2 : DB,
      register_user
          ⟨"user@example.com", "pw123456", "Test User", "+77001234567",
           none, none⟩
          ⟨[], 0⟩ "00112233445566778899aabbccddeeff" 0 false 0 =
        .ok (resp, u, db2) ∧
      u.role = UserRole.ADMINISTRATOR.value ∧
      u.status = UserStatus.ACTIVE.value ∧
      u.is_active = true ∧
      u.iin = some
        (generate_pseudo_iin "00112233445566778899aabbccddeeff") ∧
      (generate_pseudo_iin "00112233445566778899aabbccddeeff").toList =
        'E' :: ("00112233445566778899aabbccddeeff".toList.take 11) ∧
      (generate_pseudo_iin "00112233445566778899aabbccddeeff").length =
        12 ∧
      ("00112233445566778899aabbccddeeff".toList.take 11).all isHexDigit =
        true ∧
      db2.users = [] ++ [u] ∧
      resp.role = UserRole.ADMINISTRATOR.value :=
  register_user_grants_administrator
    ⟨"user@example.com", "pw123456", "Test User", "+77001234567",
     none, none⟩
    ⟨[], 0⟩ "00112233445566778899aabbccddeeff" 0 false
    (by decide) (by simp) (by decide) (by decide)

end AkimatAuth
